import Mathlib

/-!
# Verification of the shine-skin-collective ML training/inference pipeline

Shallow embedding of the core data model and operations of the repository
(`ml-training/data_pipeline.py`, `ml-training/model_architecture.py`,
`ml-training/train.py`, `ml-training/inference_server.py`), together with
theorems settling the specification claims about them.

Numeric conventions: Python floats are modelled as rationals (`ℚ`); tensors
are modelled as lists (a batch is a list of rows).  Python dictionaries are
modelled as association lists, with `dict.get(k, default)` modelled by
`dictGet`.  A Python module's import list is modelled as the list of names
that its import statements bind at module scope; evaluating a name that is
not bound raises `NameError`, modelled by an `Except String` result.
-/

namespace ShineSpec

/-! ## Label Store / Dataset model (`data_pipeline.py`) -/

/-- The 7 skin conditions (`data_pipeline.py` lines 34-37, 94-97). -/
def condition_names : List String :=
  ["acne", "aging", "fine_lines_wrinkles", "hyperpigmentation",
   "pore_size", "redness", "textured_skin"]

/-- The 6 severity levels (`data_pipeline.py` lines 40-42, 98-100). -/
def severity_levels : List String :=
  ["slight", "mild", "moderate", "severe", "advanced", "early_signs"]

/-- Python `d.get(k, default)` on an association list. -/
def dictGet {α : Type} (d : List (String × α)) (k : String) (default : α) : α :=
  match d.find? (fun p => p.1 == k) with
  | some p => p.2
  | none => default

/-- The relevant content of a sibling `*.json` annotation file:
`classification_targets` maps condition names to booleans, `severity_targets`
maps condition names to severity strings, and `training_annotations` carries a
`confidence_score` (`data_pipeline.py` lines 137-150). -/
structure AnnotationJson where
  classification_targets : List (String × Bool)
  severity_targets : List (String × String)
  confidence_score : ℚ
deriving DecidableEq

/-- One condition's entry in the per-image label dictionary built by
`SkinDataLoader.load_dataset` (`data_pipeline.py` lines 147-151). -/
structure ConditionLabel where
  present : Bool
  severity_level : String
  confidence : ℚ
deriving DecidableEq

/-- `SkinDataLoader.load_dataset`, lines 141-151: for each of the 7 conditions,
`present = classification_targets.get(condition, False)` and
`severity = severity_targets.get(condition, 'mild')`, recorded together with
the annotation's confidence score.  This is the per-image `label_dict`
(one `ImageRecord`'s labels). -/
def buildLabelDict (ann : AnnotationJson) : List (String × ConditionLabel) :=
  condition_names.map (fun c =>
    (c, { present := dictGet ann.classification_targets c false
          severity_level := dictGet ann.severity_targets c "mild"
          confidence := ann.confidence_score }))

/-- `label_dict.get(condition, {}).get('present', False)`
(`data_pipeline.py` line 59). -/
def labelGetPresent (ld : List (String × ConditionLabel)) (c : String) : Bool :=
  match ld.find? (fun p => p.1 == c) with
  | some p => p.2.present
  | none => false

/-- `label_dict.get(condition, {}).get('severity_level', 'mild')`
(`data_pipeline.py` line 65). -/
def labelGetSeverity (ld : List (String × ConditionLabel)) (c : String) : String :=
  match ld.find? (fun p => p.1 == c) with
  | some p => p.2.severity_level
  | none => "mild"

/-- Position of the first occurrence of `s` in `l` (Python `list.index`,
meaningful only when `s ∈ l`). -/
def indexIn (l : List String) (s : String) : ℕ :=
  match l with
  | [] => 0
  | x :: xs => if x == s then 0 else indexIn xs s + 1

/-- `self.severity_levels.index(severity) if severity in self.severity_levels
else 0` (`data_pipeline.py` line 66). -/
def severityIndex (s : String) : ℕ :=
  if severity_levels.contains s then indexIn severity_levels s else 0

/-- The condition target produced by `SkinConditionDataset.__getitem__` for one
condition (`data_pipeline.py` lines 57-59). -/
def conditionTarget (ld : List (String × ConditionLabel)) (c : String) : Bool :=
  labelGetPresent ld c

/-- The severity target produced by `SkinConditionDataset.__getitem__` for one
condition (`data_pipeline.py` lines 62-68): the index of the severity string in
the vocabulary (0 if absent from it) when the condition is present, and the
sentinel `-1` otherwise. -/
def severityTarget (ld : List (String × ConditionLabel)) (c : String) : ℤ :=
  if conditionTarget ld c then (severityIndex (labelGetSeverity ld c) : ℤ) else -1

/-- The length-7 condition-target vector of `__getitem__` (line 57-59). -/
def getitemConditionTargets (ld : List (String × ConditionLabel)) : List Bool :=
  condition_names.map (conditionTarget ld)

/-- The length-7 severity-target vector of `__getitem__` (lines 62-68). -/
def getitemSeverityTargets (ld : List (String × ConditionLabel)) : List ℤ :=
  condition_names.map (severityTarget ld)

/-! ## Dataset Partitioner (`data_pipeline.py`, `create_data_loaders`) -/

/-- `sklearn.model_selection.train_test_split` size rule for a float
`test_size`: the test set receives `ceil(test_size * n)` elements and the
train set the remainder. -/
def nTestSize (test_size : ℚ) (n : ℕ) : ℕ :=
  (Int.ceil (test_size * n)).toNat

/-- `SkinDataLoader.create_data_loaders` split logic (`data_pipeline.py`
lines 212-219).  The seeded shuffles performed by the two
`train_test_split(..., random_state=42)` calls are fixed permutations of
their inputs determined by the seed; they are modelled by the permutation
functions `shuffle1` (of the full list) and `shuffle2` (of the temp list),
constrained to be permutations in the theorems.  The first call returns
`(train, temp)`; the second splits `temp` into `(val, test)` with
`test_size = 1 - val_split / (1 - train_split)`. -/
def create_data_splits {α : Type} (paths : List α)
    (shuffle1 shuffle2 : List α → List α)
    (train_split val_split : ℚ) : List α × List α × List α :=
  let s1 := shuffle1 paths
  let k1 := nTestSize (1 - train_split) s1.length
  let train_paths := s1.drop k1
  let temp_paths := s1.take k1
  let s2 := shuffle2 temp_paths
  let k2 := nTestSize (1 - val_split / (1 - train_split)) s2.length
  let val_paths := s2.drop k2
  let test_paths := s2.take k2
  (train_paths, val_paths, test_paths)

/-! ## Loss Engine (`model_architecture.py`, `CombinedLoss.forward`) -/

/-- The valid pairs selected by `CombinedLoss.forward` (lines 189-197): the
flattened `(severity_logit_row, severity_target)` pairs are filtered by
`valid_mask = severity_targets_flat >= 0`. -/
def maskedPairs (severity_logits_flat : List (List ℚ))
    (severity_targets_flat : List ℤ) : List (List ℚ × ℤ) :=
  (severity_logits_flat.zip severity_targets_flat).filter (fun p => 0 ≤ p.2)

/-- `CombinedLoss.forward` (`model_architecture.py` lines 168-210),
parametrized by the primitive torch losses: `conditionLossFn` models
`self.condition_loss` (focal or BCE) and `crossEntropy` models
`self.severity_loss` applied to the selected logits/targets.  Returns
`(total_loss, condition_loss, severity_loss)`.  When no target is valid
(`valid_mask.sum() == 0`) the severity loss is the constant `0`
(lines 194-200); the total is
`condition_weight * condition_loss + severity_weight * severity_loss`
(lines 203-204). -/
def combinedLossForward
    (condition_weight severity_weight : ℚ)
    (conditionLossFn : List ℚ → List ℚ → ℚ)
    (crossEntropy : List (List ℚ × ℤ) → ℚ)
    (condition_logits condition_targets : List ℚ)
    (severity_logits_flat : List (List ℚ))
    (severity_targets_flat : List ℤ) : ℚ × ℚ × ℚ :=
  let condition_loss := conditionLossFn condition_logits condition_targets
  let valid := maskedPairs severity_logits_flat severity_targets_flat
  let severity_loss := if 0 < valid.length then crossEntropy valid else 0
  let total_loss := condition_weight * condition_loss + severity_weight * severity_loss
  (total_loss, condition_loss, severity_loss)

/-! ## Metrics Engine (`model_architecture.py`, `ModelMetrics`) -/

/-- `(condition_logits > 0.5).float()` (`ModelMetrics.update`, line 246). -/
def threshold_preds (probs : List ℚ) : List ℚ :=
  probs.map (fun p => if (1 : ℚ)/2 < p then 1 else 0)

/-- `tp = (condition_pred * condition_target).sum()` (line 272). -/
def tpSum (preds targets : List ℚ) : ℚ :=
  ((preds.zip targets).map (fun q => q.1 * q.2)).sum

/-- `fp = (condition_pred * (1 - condition_target)).sum()` (line 273). -/
def fpSum (preds targets : List ℚ) : ℚ :=
  ((preds.zip targets).map (fun q => q.1 * (1 - q.2))).sum

/-- `fn = ((1 - condition_pred) * condition_target).sum()` (line 274). -/
def fnSum (preds targets : List ℚ) : ℚ :=
  ((preds.zip targets).map (fun q => (1 - q.1) * q.2)).sum

/-- `precision = tp / (tp + fp) if (tp + fp) > 0 else 0.0` (line 276). -/
def precisionOf (preds targets : List ℚ) : ℚ :=
  if 0 < tpSum preds targets + fpSum preds targets then
    tpSum preds targets / (tpSum preds targets + fpSum preds targets)
  else 0

/-- `recall = tp / (tp + fn) if (tp + fn) > 0 else 0.0` (line 277). -/
def recallOf (preds targets : List ℚ) : ℚ :=
  if 0 < tpSum preds targets + fnSum preds targets then
    tpSum preds targets / (tpSum preds targets + fnSum preds targets)
  else 0

/-- `f1 = 2 * (precision * recall) / (precision + recall) if
(precision + recall) > 0 else 0.0` (line 278). -/
def f1Of (preds targets : List ℚ) : ℚ :=
  if 0 < precisionOf preds targets + recallOf preds targets then
    2 * (precisionOf preds targets * recallOf preds targets) /
      (precisionOf preds targets + recallOf preds targets)
  else 0

/-- Column `i` of a row-major matrix (`all_condition_preds[:, i]`,
lines 268-269). -/
def column (rows : List (List ℚ)) (i : ℕ) : List ℚ :=
  rows.map (fun r => r.getD i 0)

/-- `(all_condition_preds == all_condition_targets).float().mean()`
(line 264): element-wise agreement rate over the whole matrix. -/
def accuracyOf (predRows targetRows : List (List ℚ)) : ℚ :=
  let pairs := predRows.flatten.zip targetRows.flatten
  ((pairs.map (fun q => if q.1 = q.2 then (1 : ℚ) else 0)).sum) / pairs.length

/-- `np.mean` on a list (the intended semantics of lines 289-291). -/
def npMean (l : List ℚ) : ℚ := l.sum / l.length

/-- The names bound at module scope of `model_architecture.py` by its import
statements (lines 6-10): `torch`, `nn`, `F`, `timm` and the four `typing`
names.  In particular `numpy` is never imported, so the name `np` is unbound
in this module. -/
def model_architecture_imports : List String :=
  ["torch", "nn", "F", "timm", "Dict", "List", "Optional", "Tuple"]

/-- The computed metrics of `ModelMetrics.compute_metrics` when it returns. -/
structure MetricsResult where
  accuracy : ℚ
  perCondition : List (ℚ × ℚ × ℚ)
  macroPrecision : ℚ
  macroRecall : ℚ
  macroF1 : ℚ
deriving DecidableEq

/-- `ModelMetrics.compute_metrics` (`model_architecture.py` lines 250-293),
for the accumulated (already thresholded) prediction rows and target rows.
If nothing was accumulated it returns the empty dict (modelled `none`,
line 252-253).  Otherwise it computes the overall accuracy (line 264) and the
per-condition precision/recall/F1 (lines 266-282), and then evaluates
`np.mean(...)` (lines 289-291): since the module name `np` must be bound for
that evaluation, an unbound `np` raises `NameError` at that point. -/
def compute_metrics (moduleNames : List String)
    (predRows targetRows : List (List ℚ)) :
    Except String (Option MetricsResult) :=
  if predRows.isEmpty then .ok none
  else
    let acc := accuracyOf predRows targetRows
    let per := (List.range 7).map (fun i =>
      (precisionOf (column predRows i) (column targetRows i),
       recallOf (column predRows i) (column targetRows i),
       f1Of (column predRows i) (column targetRows i)))
    if moduleNames.contains "np" then
      .ok (some { accuracy := acc
                  perCondition := per
                  macroPrecision := npMean (per.map (fun m => m.1))
                  macroRecall := npMean (per.map (fun m => m.2.1))
                  macroF1 := npMean (per.map (fun m => m.2.2)) })
    else
      .error "NameError: name np is not defined"

/-! ## Inference Service (`inference_server.py`) -/

/-- The severity-bucket mapping of the `/infer` endpoint
(`inference_server.py` lines 98-104): `prob < 0.2 → "mild"`,
`prob < 0.4 → "moderate"`, else `"severe"`. -/
def severityBucket (prob : ℚ) : String :=
  if prob < 1/5 then "mild"
  else if prob < 2/5 then "moderate"
  else "severe"

/-- Python's built-in `round` (round half to even) on a rational. -/
def pythonRound (q : ℚ) : ℤ :=
  let fl := ⌊q⌋
  let frac := q - fl
  if frac < 1/2 then fl
  else if 1/2 < frac then fl + 1
  else if fl % 2 = 0 then fl else fl + 1

/-- `"percentage": round(prob * 100)` (`inference_server.py` line 108). -/
def percentageOf (prob : ℚ) : ℤ := pythonRound (prob * 100)

/-- `name.replace("_", " ").title()` (line 106) for the condition names used
here (each `_`-separated word starts with a lowercase letter). -/
def displayName (c : String) : String :=
  String.intercalate " " ((c.splitOn "_").map String.capitalize)

/-- One entry of the `concerns` list (lines 105-110): display name, severity
bucket and rounded percentage (the constant `description` field is omitted). -/
structure Concern where
  name : String
  severity : String
  percentage : ℤ
deriving DecidableEq

/-- The concerns built from a vector of presence probabilities
(lines 96-110 for the full face, line 152-155 for a region). -/
def mkConcerns (probs : List ℚ) : List Concern :=
  (condition_names.zip probs).map (fun q =>
    { name := displayName q.1
      severity := severityBucket q.2
      percentage := percentageOf q.2 })

/-- The names bound at module scope of `inference_server.py` by its import
statements (lines 6-17) and module-level definitions (lines 20-57).  In
particular `numpy` is never imported at module scope (the only
`import numpy as np` in the file is a local import inside the `try` block at
line 114), so the name `np` is unbound when line 75 executes. -/
def inference_server_imports : List String :=
  ["FastAPI", "UploadFile", "File", "HTTPException", "CORSMiddleware",
   "BaseModel", "uvicorn", "torch", "transforms", "Image", "io", "os",
   "create_model", "mp", "InferenceResponse", "load_model", "device",
   "CHECKPOINT", "model", "preprocess", "app", "health"]

/-- Request-time environment of the `/infer` handler: whether the uploaded
file's content type starts with `image/`, whether `mesh.process` (line 76,
outside the `try` block) raises, whether any face landmarks are found
(line 115), and whether anything inside the `try` block of lines 113-155
raises. -/
structure InferRequestEnv where
  contentTypeIsImage : Bool
  meshProcessRaises : Bool
  landmarksFound : Bool
  regionStageRaises : Bool

/-- Outcome of one `/infer` request: a 200 response with concerns and
optional region concerns, a 400 client error (line 64), or an uncaught
exception surfacing as a server error. -/
inductive HttpOutcome where
  | response (concerns : List Concern)
      (region_concerns : Option (List (String × List Concern)))
  | clientError (status : ℕ) (detail : String)
  | serverError (message : String)
deriving DecidableEq

/-- The region names analysed inside the `try` block (lines 129-135). -/
def roiNames : List String :=
  ["left_cheek", "right_cheek", "forehead", "t_zone", "chin"]

/-- The `/infer` handler (`inference_server.py` lines 62-160), over the module
environment `moduleNames` and the request environment.  Control flow in source
order: the content-type check (lines 63-64); the evaluation of
`img_np = np.array(pil)` at line 75, which raises `NameError` when the name
`np` is not bound — this line is outside any `try`, so the exception fails the
request; `mesh.process` at line 76, also outside any `try`; the full-face
concerns (lines 85-110); and the region stage inside `try`/`except Exception`
(lines 113-158), whose failure (or absent landmarks) leaves
`region_concerns = None`.  `fullProbs` and `regionProbs` are the model's
presence probabilities for the full image and for each region crop. -/
def infer (moduleNames : List String) (req : InferRequestEnv)
    (fullProbs : List ℚ) (regionProbs : String → List ℚ) : HttpOutcome :=
  if ¬ req.contentTypeIsImage then
    .clientError 400 "Invalid file type"
  else if ¬ moduleNames.contains "np" then
    .serverError "NameError: name np is not defined"
  else if req.meshProcessRaises then
    .serverError "unhandled exception in mesh.process"
  else
    let concerns := mkConcerns fullProbs
    let region_concerns :=
      if req.landmarksFound ∧ ¬ req.regionStageRaises then
        some (roiNames.map (fun n => (n, mkConcerns (regionProbs n))))
      else none
    .response concerns region_concerns

/-! ## Trainer (`train.py`, `SkinConditionTrainer.train`) -/

/-- The trainer state tracked across epochs that the temporal claims are
about: the running best validation macro-F1 (`self.best_val_f1`, line 93),
the epoch whose weights were last copied as best (line 396), the epochs at
which a best checkpoint (`best_model.pth`) was persisted (lines 304-306), the
epochs at which a regular checkpoint was persisted (lines 300-301), and the
epochs that actually ran. -/
structure TrainerState where
  best_val_f1 : ℚ
  best_epoch : Option ℕ
  saved_best : List ℕ
  saved_regular : List ℕ
  epochs_run : List ℕ
deriving DecidableEq

/-- Trainer state at the start of `train` (line 93: `best_val_f1 = 0.0`). -/
def initialTrainerState : TrainerState :=
  { best_val_f1 := 0, best_epoch := none, saved_best := [],
    saved_regular := [], epochs_run := [] }

/-- One iteration of the epoch loop of `SkinConditionTrainer.train`
(`train.py` lines 369-418), with the epoch's validation macro-F1 supplied by
the oracle `val_f1` (the value of `val_metrics['macro_f1']`): best-model
tracking (lines 393-396), the checkpoint decision
`(epoch + 1) % 10 == 0 or is_best` (lines 399-400), and the early-stopping
test `epoch > 20 and val_metrics['macro_f1'] < 0.3` (lines 416-418); the
literal `0.3` is written `mkRat 3 10` (the rational 3/10) so that the loop
stays kernel-evaluable.  Returns the updated state and whether the loop
`break`s. -/
def epochStep (val_f1 : ℕ → ℚ) (st : TrainerState) (epoch : ℕ) :
    TrainerState × Bool :=
  let f1 := val_f1 epoch
  let is_best := st.best_val_f1 < f1
  let st1 := { st with epochs_run := st.epochs_run ++ [epoch] }
  let st2 := if is_best then
      { st1 with best_val_f1 := f1, best_epoch := some epoch } else st1
  let st3 := if (epoch + 1) % 10 = 0 ∨ is_best then
      { st2 with
        saved_regular := st2.saved_regular ++ [epoch]
        saved_best := if is_best then st2.saved_best ++ [epoch]
                      else st2.saved_best }
    else st2
  (st3, decide (20 < epoch ∧ f1 < mkRat 3 10))

/-- The epoch loop `for epoch in range(self.num_epochs)` (line 369) starting
at `epoch`, with `fuel` epochs remaining; the loop exits early when
`epochStep` signals the early-stopping `break`. -/
def trainLoop (val_f1 : ℕ → ℚ) : ℕ → ℕ → TrainerState → TrainerState
  | 0, _, st => st
  | fuel + 1, epoch, st =>
    let r := epochStep val_f1 st epoch
    if r.2 then r.1 else trainLoop val_f1 fuel (epoch + 1) r.1

/-- `SkinConditionTrainer.train` (lines 358-428): run the epoch loop over
`range(num_epochs)` from the initial state, then unconditionally save a final
regular checkpoint `save_checkpoint(self.num_epochs - 1)` (line 428). -/
def train (val_f1 : ℕ → ℚ) (num_epochs : ℕ) : TrainerState :=
  let st := trainLoop val_f1 num_epochs 0 initialTrainerState
  { st with saved_regular := st.saved_regular ++ [num_epochs - 1] }

/-! ## Spec-side definitions

The specification states the per-condition metrics in terms of
true-positive/false-positive/false-negative counts over the thresholded
prediction/target pairs.  These definitions follow the spec's words and are
compared with the code-side `tpSum`/`fpSum`/`fnSum` arithmetic. -/

/-- Spec-side: number of pairs predicted positive with a positive target. -/
def specTP (pairs : List (Bool × Bool)) : ℕ :=
  pairs.countP (fun q => q.1 && q.2)

/-- Spec-side: number of pairs predicted positive with a negative target. -/
def specFP (pairs : List (Bool × Bool)) : ℕ :=
  pairs.countP (fun q => q.1 && !q.2)

/-- Spec-side: number of pairs predicted negative with a positive target. -/
def specFN (pairs : List (Bool × Bool)) : ℕ :=
  pairs.countP (fun q => !q.1 && q.2)

/-- The boolean (prediction, target) pairs: a prediction is positive when the
probability exceeds the 0.5 threshold. -/
def specPairs (probs : List ℚ) (targets : List Bool) : List (Bool × Bool) :=
  (probs.map (fun p => decide ((1 : ℚ)/2 < p))).zip targets

/-- The 0/1 float encoding of a binary target. -/
def boolIndicator (b : Bool) : ℚ := if b then 1 else 0

/-- A concrete annotation file: `acne` is marked absent while its severity
entry reads `"severe"`. -/
def c2_ann : AnnotationJson :=
  { classification_targets := [("acne", false)]
    severity_targets := [("acne", "severe")]
    confidence_score := 1/2 }

/-! ## Helper lemmas -/

/-- `find?` on a keyed map over a list of keys returns the entry of the first
matching key. -/
theorem find_map_keyed (l : List String) (f : String → ConditionLabel)
    (c : String) (hc : c ∈ l) :
    (l.map (fun x => (x, f x))).find? (fun p => p.1 == c) = some (c, f c) := by
  induction l with
  | nil => cases hc
  | cons x xs ih =>
    by_cases hx : x = c
    · subst hx
      simp [List.find?_cons]
    · have hbeq : (x == c) = false := by
        simp [hx]
      have hmem : c ∈ xs := by
        cases hc with
        | head => exact absurd rfl hx
        | tail _ h => exact h
      simp only [List.map_cons, List.find?_cons, hbeq]
      exact ih hmem

/-- The entry `buildLabelDict` holds for a condition in the fixed list. -/
theorem buildLabelDict_find (ann : AnnotationJson) (c : String)
    (hc : c ∈ condition_names) :
    (buildLabelDict ann).find? (fun p => p.1 == c) =
      some (c, { present := dictGet ann.classification_targets c false
                 severity_level := dictGet ann.severity_targets c "mild"
                 confidence := ann.confidence_score }) :=
  find_map_keyed condition_names _ c hc

/-- `indexIn` of a contained element is a valid position. -/
theorem indexIn_lt_length (l : List String) (s : String)
    (h : l.contains s = true) : indexIn l s < l.length := by
  induction l with
  | nil => simp at h
  | cons x xs ih =>
    by_cases hx : (x == s) = true
    · simp [indexIn, hx]
    · have hne : x ≠ s := by
        simpa using hx
      have hx' : (x == s) = false := by
        simp [hne]
      have hsx : (s == x) = false := by
        simp [Ne.symm hne]
      have hxs : xs.contains s = true := by
        simp only [List.contains_cons, hsx, Bool.false_or] at h
        exact h
      simp only [indexIn, hx', if_false, List.length_cons]
      exact Nat.succ_lt_succ (ih hxs)

/-- The severity class index is always one of the 6 classes `0..5`. -/
theorem severityIndex_le_five (s : String) : severityIndex s ≤ 5 := by
  unfold severityIndex
  by_cases h : severity_levels.contains s = true
  · rw [if_pos h]
    have h1 := indexIn_lt_length severity_levels s h
    have hlen : severity_levels.length = 6 := rfl
    omega
  · rw [if_neg h]
    omega

/-! ## Claim C2 — label consistency invariant of the Label Store -/

/-- Claim C2, counterexample: `load_dataset` does not enforce the invariant
that absent conditions carry severity `"none"`.  On the concrete annotation
`c2_ann` (acne absent, severity entry `"severe"`) the produced record marks
acne absent with severity `"severe"`. -/
theorem C2_label_consistency_counterexample :
    ∃ p ∈ buildLabelDict c2_ann,
      p.2.present = false ∧ p.2.severity_level ≠ "none" := by
  refine ⟨("acne",
    { present := false, severity_level := "severe", confidence := 1/2 }),
    ?_, rfl, by decide⟩
  simp [buildLabelDict, condition_names, c2_ann, dictGet]

/-- Claim C2, amended: `load_dataset` copies the annotation's raw severity
entry (default `"mild"`) into the record independently of the presence flag,
so an absent condition need not carry `"none"`; label consistency for absent
conditions is imposed only downstream, where `__getitem__` assigns the ignore
sentinel `-1` to the severity target of every absent condition. -/
theorem C2_label_consistency_amended (ann : AnnotationJson) (c : String)
    (hc : c ∈ condition_names) :
    labelGetPresent (buildLabelDict ann) c =
      dictGet ann.classification_targets c false
  ∧ labelGetSeverity (buildLabelDict ann) c =
      dictGet ann.severity_targets c "mild"
  ∧ (labelGetPresent (buildLabelDict ann) c = false →
      severityTarget (buildLabelDict ann) c = -1) := by
  have hfind := buildLabelDict_find ann c hc
  refine ⟨?_, ?_, ?_⟩
  · simp [labelGetPresent, hfind]
  · simp [labelGetSeverity, hfind]
  · intro hp
    simp [severityTarget, conditionTarget, hp]

/-- Claim C2, witness for the amended statement at the concrete annotation
`c2_ann` and condition `"acne"`. -/
theorem C2_label_consistency_amended_witness :
    "acne" ∈ condition_names
  ∧ labelGetPresent (buildLabelDict c2_ann) "acne" =
      dictGet c2_ann.classification_targets "acne" false
  ∧ labelGetSeverity (buildLabelDict c2_ann) "acne" =
      dictGet c2_ann.severity_targets "acne" "mild"
  ∧ (labelGetPresent (buildLabelDict c2_ann) "acne" = false →
      severityTarget (buildLabelDict c2_ann) "acne" = -1) := by
  have h := C2_label_consistency_amended c2_ann "acne" (by decide)
  exact ⟨by decide, h.1, h.2.1, h.2.2⟩

/-! ## Claim C10 — severity-target encoding of `__getitem__` -/

/-- Claim C10: the severity-target entry of a dataset item is `-1` exactly
when the condition's presence target is false; when present it is a class
index in `0..5`; a severity string outside the 6-word vocabulary — including
`"none"` — maps to class 0 (`"slight"`), and a missing severity annotation
defaults through `'mild'` to class 1. -/
theorem C10_severity_target_encoding (ld : List (String × ConditionLabel))
    (c : String) (ann : AnnotationJson) (hc : c ∈ condition_names) :
    (severityTarget ld c = -1 ↔ conditionTarget ld c = false)
  ∧ (conditionTarget ld c = true →
      0 ≤ severityTarget ld c ∧ severityTarget ld c ≤ 5)
  ∧ (conditionTarget ld c = true →
      severity_levels.contains (labelGetSeverity ld c) = false →
      severityTarget ld c = 0)
  ∧ severityIndex "none" = 0
  ∧ severityIndex "mild" = 1
  ∧ (ann.severity_targets.find? (fun p => p.1 == c) = none →
      conditionTarget (buildLabelDict ann) c = true →
      severityTarget (buildLabelDict ann) c = 1) := by
  have hnonneg : (0 : ℤ) ≤ (severityIndex (labelGetSeverity ld c) : ℤ) :=
    Int.natCast_nonneg _
  have hle : (severityIndex (labelGetSeverity ld c) : ℤ) ≤ 5 := by
    have := severityIndex_le_five (labelGetSeverity ld c)
    omega
  refine ⟨?_, ?_, ?_, by decide, by decide, ?_⟩
  · cases hpt : conditionTarget ld c with
    | false => simp [severityTarget, hpt]
    | true =>
      simp only [severityTarget, hpt, if_true]
      constructor
      · intro hcontra
        omega
      · intro hcontra
        cases hcontra
  · intro hpt
    simp only [severityTarget, hpt, if_true]
    exact ⟨hnonneg, hle⟩
  · intro hpt hcon
    simp only [severityTarget, hpt, if_true, severityIndex, hcon]
    simp
  · intro hfind hpt
    have hsev : labelGetSeverity (buildLabelDict ann) c = "mild" := by
      simp [labelGetSeverity, buildLabelDict_find ann c hc, dictGet, hfind]
    simp only [severityTarget, hpt, if_true, hsev]
    decide

/-- Claim C10, witness: a label dictionary marking acne present with severity
`"moderate"` yields target 2, and an annotation with no severity entry and
acne present yields target 1. -/
theorem C10_severity_target_encoding_witness :
    "acne" ∈ condition_names
  ∧ (severityTarget
        [("acne", { present := true, severity_level := "moderate",
                    confidence := 0 })] "acne" = -1
      ↔ conditionTarget
        [("acne", { present := true, severity_level := "moderate",
                    confidence := 0 })] "acne" = false) := by
  have h := C10_severity_target_encoding
    [("acne", { present := true, severity_level := "moderate",
                confidence := 0 })] "acne"
    { classification_targets := [("acne", true)], severity_targets := [],
      confidence_score := 0 } (by decide)
  exact ⟨by decide, h.1⟩

/-! ## Claim C3 — masked severity loss -/

/-- Claim C3: on a batch whose severity targets are all the ignore sentinel
`-1`, `CombinedLoss.forward` produces a severity loss of exactly `0` and a
total loss equal to `condition_weight * condition_loss`; in general the
cross-entropy only ever sees target entries that are not `-1`. -/
theorem C3_severity_loss_masked (cw sw : ℚ)
    (clf : List ℚ → List ℚ → ℚ) (ce : List (List ℚ × ℤ) → ℚ)
    (cl ct : List ℚ) (sl : List (List ℚ)) (st : List ℤ)
    (hall : ∀ t ∈ st, t = -1) :
    (combinedLossForward cw sw clf ce cl ct sl st).2.2 = 0
  ∧ (combinedLossForward cw sw clf ce cl ct sl st).1 = cw * clf cl ct
  ∧ (∀ (sl2 : List (List ℚ)) (st2 : List ℤ),
      ∀ q ∈ maskedPairs sl2 st2, q.2 ≠ -1) := by
  have hempty : maskedPairs sl st = [] := by
    unfold maskedPairs
    rw [List.filter_eq_nil_iff]
    intro q hq
    obtain ⟨a, b⟩ := q
    have hb : b ∈ st := (List.of_mem_zip hq).2
    have hb1 := hall b hb
    subst hb1
    simp
  refine ⟨?_, ?_, ?_⟩
  · simp [combinedLossForward, hempty]
  · simp [combinedLossForward, hempty]
  · intro sl2 st2 q hq
    unfold maskedPairs at hq
    have hq2 := List.of_mem_filter hq
    have h0 : (0 : ℤ) ≤ q.2 := by simpa using hq2
    omega

/-- Claim C3, witness: a one-sample batch with severity target `-1` yields
severity loss `0` and total loss `condition_weight * condition_loss`, for a
concrete cross-entropy oracle that would return `5` on any input. -/
theorem C3_severity_loss_masked_witness :
    (∀ t ∈ [(-1 : ℤ)], t = -1)
  ∧ (combinedLossForward 1 (1/2) (fun _ _ => (2 : ℚ)) (fun _ => (5 : ℚ))
      [] [] [[1]] [-1]).2.2 = 0
  ∧ (combinedLossForward 1 (1/2) (fun _ _ => (2 : ℚ)) (fun _ => (5 : ℚ))
      [] [] [[1]] [-1]).1 = 1 * 2 := by
  have h := C3_severity_loss_masked 1 (1/2) (fun _ _ => (2 : ℚ))
    (fun _ => (5 : ℚ)) [] [] [[1]] [-1] (by decide)
  exact ⟨by decide, h.1, h.2.1⟩

/-! ## Claim C8 — macro metrics of `compute_metrics` -/

/-- Claim C8: because `model_architecture.py` never imports `numpy`, the name
`np` is unbound when `compute_metrics` reaches `np.mean(precisions)`
(line 289), so on any non-empty accumulated prediction set `compute_metrics`
raises `NameError` instead of returning the macro means and the accuracy.
This refutes the claim's requirement that the macro metrics and accuracy are
returned; the raise is a bug, not the intended behavior, since `np.mean`
denotes `numpy`'s arithmetic mean (`npMean`), which the code clearly intends
to call. -/
theorem C8_macro_metrics_name_error (predRows targetRows : List (List ℚ))
    (h : predRows ≠ []) :
    compute_metrics model_architecture_imports predRows targetRows =
      Except.error "NameError: name np is not defined" := by
  have hnp : "np" ∉ model_architecture_imports := by decide
  have hne : predRows.isEmpty = false := by
    cases predRows with
    | nil => exact absurd rfl h
    | cons a l => rfl
  simp [compute_metrics, hne, hnp]

/-- Claim C8, witness: a single accumulated one-entry batch makes
`compute_metrics` fail with the `NameError`. -/
theorem C8_macro_metrics_name_error_witness :
    ([[(1 : ℚ)]] : List (List ℚ)) ≠ []
  ∧ compute_metrics model_architecture_imports [[(1 : ℚ)]] [[(1 : ℚ)]] =
      Except.error "NameError: name np is not defined" :=
  ⟨by simp, C8_macro_metrics_name_error [[(1 : ℚ)]] [[(1 : ℚ)]] (by simp)⟩

/-! ## Claim C1 — region failures and the `/infer` request -/

/-- Claim C1: in `inference_server.py` the landmark preparation at lines 69-76
runs outside the `try` block, and line 75 (`img_np = np.array(pil)`) refers to
`np`, which the module never imports at module scope (the only
`import numpy as np` is inside the later `try` block, which in CPython also
makes `np` a local of the function, so line 75 raises
`UnboundLocalError`/`NameError`).  Hence every well-typed request fails with
an uncaught exception before the full-face concerns are built, refuting the
claim that a failure in the landmark/region stage never fails the request. -/
theorem C1_infer_raises_on_unbound_np (req : InferRequestEnv)
    (fullProbs : List ℚ) (regionProbs : String → List ℚ)
    (h : req.contentTypeIsImage = true) :
    infer inference_server_imports req fullProbs regionProbs =
      HttpOutcome.serverError "NameError: name np is not defined" := by
  have hnp : "np" ∉ inference_server_imports := by decide
  simp [infer, h, hnp]

/-- Claim C1, witness: a concrete image request (valid content type, working
mesh, landmarks found, region stage healthy) still fails with the uncaught
`NameError`. -/
theorem C1_infer_raises_on_unbound_np_witness :
    ({ contentTypeIsImage := true, meshProcessRaises := false,
       landmarksFound := true, regionStageRaises := false } :
        InferRequestEnv).contentTypeIsImage = true
  ∧ infer inference_server_imports
      { contentTypeIsImage := true, meshProcessRaises := false,
        landmarksFound := true, regionStageRaises := false }
      [] (fun _ => []) =
      HttpOutcome.serverError "NameError: name np is not defined" :=
  ⟨rfl, C1_infer_raises_on_unbound_np _ [] (fun _ => []) rfl⟩

/-! ## Claim C5 — severity bucketing thresholds -/

/-- Rounding a rational in `[0, 100]` half-to-even stays in `[0, 100]`. -/
theorem pythonRound_mem_range (q : ℚ) (h0 : 0 ≤ q) (h100 : q ≤ 100) :
    0 ≤ pythonRound q ∧ pythonRound q ≤ 100 := by
  have hfl_le : (⌊q⌋ : ℚ) ≤ q := Int.floor_le q
  have hfl_nonneg : 0 ≤ ⌊q⌋ := Int.floor_nonneg.mpr h0
  have hfl_le100 : ⌊q⌋ ≤ 100 := by
    have h : (⌊q⌋ : ℚ) ≤ 100 := le_trans hfl_le h100
    exact_mod_cast h
  have hfrac : (⌊q⌋ : ℚ) ≤ q := hfl_le
  simp only [pythonRound]
  split_ifs with h1 h2 h3
  · exact ⟨hfl_nonneg, hfl_le100⟩
  · constructor
    · omega
    · have hlt : (⌊q⌋ : ℚ) < 100 := by linarith
      have hlt2 : ⌊q⌋ < 100 := by exact_mod_cast hlt
      omega
  · exact ⟨hfl_nonneg, hfl_le100⟩
  · have heq : q - ⌊q⌋ = 1/2 := le_antisymm (not_lt.mp h2) (not_lt.mp h1)
    constructor
    · omega
    · have hlt : (⌊q⌋ : ℚ) < 100 := by linarith
      have hlt2 : ⌊q⌋ < 100 := by exact_mod_cast hlt
      omega

/-- Claim C5: the `/infer` endpoint maps a presence probability to a severity
bucket by the fixed thresholds `p < 0.2 → mild`, `0.2 ≤ p < 0.4 → moderate`,
`p ≥ 0.4 → severe`; in particular `p = 0.5` maps to `severe`, and the
reported percentage `round(p * 100)` lies in `0..100` for `p ∈ [0, 1]`. -/
theorem C5_severity_thresholds (p : ℚ) :
    (p < 1/5 → severityBucket p = "mild")
  ∧ (1/5 ≤ p → p < 2/5 → severityBucket p = "moderate")
  ∧ (2/5 ≤ p → severityBucket p = "severe")
  ∧ severityBucket (1/2) = "severe"
  ∧ (0 ≤ p → p ≤ 1 → 0 ≤ percentageOf p ∧ percentageOf p ≤ 100) := by
  refine ⟨?_, ?_, ?_, by norm_num [severityBucket], ?_⟩
  · intro h
    rw [severityBucket, if_pos h]
  · intro h1 h2
    rw [severityBucket, if_neg (not_lt.mpr h1), if_pos h2]
  · intro h
    have h1 : ¬ p < 1/5 := not_lt.mpr (by linarith)
    have h2 : ¬ p < 2/5 := not_lt.mpr h
    rw [severityBucket, if_neg h1, if_neg h2]
  · intro h0 h1
    have hr := pythonRound_mem_range (p * 100)
      (by positivity)
      (by nlinarith)
    simpa [percentageOf] using hr

/-- Claim C5, witness at `p = 0.5`: the bucket is `"severe"` and the
percentage lies in range. -/
theorem C5_severity_thresholds_witness :
    ((2 : ℚ)/5 ≤ 1/2)
  ∧ severityBucket (1/2) = "severe"
  ∧ (0 ≤ (1 : ℚ)/2 ∧ (1 : ℚ)/2 ≤ 1)
  ∧ (0 ≤ percentageOf (1/2) ∧ percentageOf (1/2) ≤ 100) := by
  have h := C5_severity_thresholds (1/2)
  exact ⟨by norm_num, h.2.2.1 (by norm_num), ⟨by norm_num, by norm_num⟩,
    h.2.2.2.2 (by norm_num) (by norm_num)⟩

/-! ## Claim C4 — per-condition precision/recall/F1 -/

/-- Summing a 0/1 indicator over a list counts the satisfying elements. -/
theorem sumMap_eq_countP (z : List (ℚ × Bool)) (f : ℚ × Bool → ℚ)
    (p : ℚ × Bool → Bool) (hf : ∀ q, f q = if p q then 1 else 0) :
    (z.map f).sum = (z.countP p : ℚ) := by
  induction z with
  | nil => simp
  | cons a l ih =>
    simp only [List.map_cons, List.sum_cons, List.countP_cons, ih, hf a]
    by_cases hp : p a = true
    · simp only [hp, if_true]
      push_cast
      ring
    · have hp' : p a = false := by simpa using hp
      simp [hp']

/-- The code's `tp` sum equals the spec's true-positive count. -/
theorem tpSum_eq_specTP (probs : List ℚ) (targets : List Bool) :
    tpSum (threshold_preds probs) (targets.map boolIndicator) =
      (specTP (specPairs probs targets) : ℚ) := by
  unfold tpSum specTP specPairs threshold_preds
  rw [List.zip_map, List.map_map, List.zip_map_left, List.countP_map]
  apply sumMap_eq_countP
  intro q
  obtain ⟨x, b⟩ := q
  by_cases hx : (1 : ℚ)/2 < x <;> cases b <;>
    simp [boolIndicator, hx, Prod.map]

/-- The code's `fp` sum equals the spec's false-positive count. -/
theorem fpSum_eq_specFP (probs : List ℚ) (targets : List Bool) :
    fpSum (threshold_preds probs) (targets.map boolIndicator) =
      (specFP (specPairs probs targets) : ℚ) := by
  unfold fpSum specFP specPairs threshold_preds
  rw [List.zip_map, List.map_map, List.zip_map_left, List.countP_map]
  apply sumMap_eq_countP
  intro q
  obtain ⟨x, b⟩ := q
  by_cases hx : (1 : ℚ)/2 < x <;> cases b <;>
    simp [boolIndicator, hx, Prod.map]

/-- The code's `fn` sum equals the spec's false-negative count. -/
theorem fnSum_eq_specFN (probs : List ℚ) (targets : List Bool) :
    fnSum (threshold_preds probs) (targets.map boolIndicator) =
      (specFN (specPairs probs targets) : ℚ) := by
  unfold fnSum specFN specPairs threshold_preds
  rw [List.zip_map, List.map_map, List.zip_map_left, List.countP_map]
  apply sumMap_eq_countP
  intro q
  obtain ⟨x, b⟩ := q
  by_cases hx : (1 : ℚ)/2 < x
  · have hx2 : (2 : ℚ)⁻¹ < x := by
      rw [← one_div]
      exact hx
    have h2 : ¬ x ≤ (2 : ℚ)⁻¹ := not_le.mpr hx2
    cases b <;> simp [boolIndicator, Prod.map, hx, hx2, h2]
  · have hx2 : ¬ (2 : ℚ)⁻¹ < x := by
      rw [← one_div]
      exact hx
    have h2 : x ≤ (2 : ℚ)⁻¹ := not_lt.mp hx2
    cases b <;> simp [boolIndicator, Prod.map, hx, hx2, h2]

/-- Claim C4: over an accumulated set of thresholded predictions and binary
targets, the Metrics Engine's `tp`/`fp`/`fn` sums equal the spec's counts,
precision is `TP/(TP+FP)`, recall is `TP/(TP+FN)`, F1 is the harmonic mean of
the two, and each of the three is `0` — with no division fault — whenever its
denominator is `0`. -/
theorem C4_metric_formulas (probs : List ℚ) (targets : List Bool) :
    (tpSum (threshold_preds probs) (targets.map boolIndicator) =
        (specTP (specPairs probs targets) : ℚ)
      ∧ fpSum (threshold_preds probs) (targets.map boolIndicator) =
        (specFP (specPairs probs targets) : ℚ)
      ∧ fnSum (threshold_preds probs) (targets.map boolIndicator) =
        (specFN (specPairs probs targets) : ℚ))
  ∧ (specTP (specPairs probs targets) + specFP (specPairs probs targets) = 0 →
      precisionOf (threshold_preds probs) (targets.map boolIndicator) = 0)
  ∧ (0 < specTP (specPairs probs targets) + specFP (specPairs probs targets) →
      precisionOf (threshold_preds probs) (targets.map boolIndicator) =
        (specTP (specPairs probs targets) : ℚ) /
          ((specTP (specPairs probs targets) : ℚ) +
            (specFP (specPairs probs targets) : ℚ)))
  ∧ (specTP (specPairs probs targets) + specFN (specPairs probs targets) = 0 →
      recallOf (threshold_preds probs) (targets.map boolIndicator) = 0)
  ∧ (0 < specTP (specPairs probs targets) + specFN (specPairs probs targets) →
      recallOf (threshold_preds probs) (targets.map boolIndicator) =
        (specTP (specPairs probs targets) : ℚ) /
          ((specTP (specPairs probs targets) : ℚ) +
            (specFN (specPairs probs targets) : ℚ)))
  ∧ (precisionOf (threshold_preds probs) (targets.map boolIndicator) +
        recallOf (threshold_preds probs) (targets.map boolIndicator) = 0 →
      f1Of (threshold_preds probs) (targets.map boolIndicator) = 0)
  ∧ (0 < precisionOf (threshold_preds probs) (targets.map boolIndicator) +
        recallOf (threshold_preds probs) (targets.map boolIndicator) →
      f1Of (threshold_preds probs) (targets.map boolIndicator) =
        2 * (precisionOf (threshold_preds probs) (targets.map boolIndicator) *
              recallOf (threshold_preds probs) (targets.map boolIndicator)) /
          (precisionOf (threshold_preds probs) (targets.map boolIndicator) +
            recallOf (threshold_preds probs) (targets.map boolIndicator))) := by
  have htp := tpSum_eq_specTP probs targets
  have hfp := fpSum_eq_specFP probs targets
  have hfn := fnSum_eq_specFN probs targets
  refine ⟨⟨htp, hfp, hfn⟩, ?_, ?_, ?_, ?_, ?_, ?_⟩
  · intro hz
    have hz' : tpSum (threshold_preds probs) (targets.map boolIndicator) +
        fpSum (threshold_preds probs) (targets.map boolIndicator) = 0 := by
      rw [htp, hfp]
      exact_mod_cast hz
    rw [precisionOf, if_neg]
    rw [hz']
    exact lt_irrefl 0
  · intro hz
    have hz' : 0 < tpSum (threshold_preds probs) (targets.map boolIndicator) +
        fpSum (threshold_preds probs) (targets.map boolIndicator) := by
      rw [htp, hfp]
      exact_mod_cast hz
    rw [precisionOf, if_pos hz', htp, hfp]
  · intro hz
    have hz' : tpSum (threshold_preds probs) (targets.map boolIndicator) +
        fnSum (threshold_preds probs) (targets.map boolIndicator) = 0 := by
      rw [htp, hfn]
      exact_mod_cast hz
    rw [recallOf, if_neg]
    rw [hz']
    exact lt_irrefl 0
  · intro hz
    have hz' : 0 < tpSum (threshold_preds probs) (targets.map boolIndicator) +
        fnSum (threshold_preds probs) (targets.map boolIndicator) := by
      rw [htp, hfn]
      exact_mod_cast hz
    rw [recallOf, if_pos hz', htp, hfn]
  · intro hz
    rw [f1Of, if_neg]
    rw [hz]
    exact lt_irrefl 0
  · intro hz
    rw [f1Of, if_pos hz]

/-- Claim C4, witness on a concrete two-sample column with one true positive
and no false positives. -/
theorem C4_metric_formulas_witness :
    (0 < specTP (specPairs [(3 : ℚ)/4, 1/4] [true, false]) +
        specFP (specPairs [(3 : ℚ)/4, 1/4] [true, false]))
  ∧ precisionOf (threshold_preds [(3 : ℚ)/4, 1/4])
      ([true, false].map boolIndicator) =
      (specTP (specPairs [(3 : ℚ)/4, 1/4] [true, false]) : ℚ) /
        ((specTP (specPairs [(3 : ℚ)/4, 1/4] [true, false]) : ℚ) +
          (specFP (specPairs [(3 : ℚ)/4, 1/4] [true, false]) : ℚ)) := by
  refine ⟨by norm_num [specTP, specFP, specPairs, List.countP_cons], ?_⟩
  exact (C4_metric_formulas [(3 : ℚ)/4, 1/4] [true, false]).2.2.1
    (by norm_num [specTP, specFP, specPairs, List.countP_cons])

/-! ## Claim C6 — early stopping of the training loop -/

/-- The early-stopping flag of one epoch step is exactly the test of
`train.py` line 416. -/
theorem epochStep_snd (v : ℕ → ℚ) (st : TrainerState) (e : ℕ) :
    (epochStep v st e).2 = decide (20 < e ∧ v e < mkRat 3 10) := rfl

/-- An epoch step appends exactly its epoch to the run log. -/
theorem epochStep_epochs_run (v : ℕ → ℚ) (st : TrainerState) (e : ℕ) :
    (epochStep v st e).1.epochs_run = st.epochs_run ++ [e] := by
  simp only [epochStep]
  split_ifs <;> rfl

/-- An epoch step only ever appends to the persisted best checkpoints. -/
theorem epochStep_saved_best (v : ℕ → ℚ) (st : TrainerState) (e : ℕ) :
    ∃ l, (epochStep v st e).1.saved_best = st.saved_best ++ l := by
  simp only [epochStep]
  split_ifs <;>
    first
      | exact ⟨[e], rfl⟩
      | exact ⟨[], (List.append_nil _).symm⟩

/-- The epoch loop only ever appends to the persisted best checkpoints: any
best checkpoint already on disk when the loop starts is still on disk when it
ends. -/
theorem trainLoop_saved_best (v : ℕ → ℚ) :
    ∀ (fuel epoch : ℕ) (st : TrainerState),
      ∃ l, (trainLoop v fuel epoch st).saved_best = st.saved_best ++ l := by
  intro fuel
  induction fuel with
  | zero =>
    intro epoch st
    exact ⟨[], (List.append_nil _).symm⟩
  | succ n ih =>
    intro epoch st
    simp only [trainLoop]
    by_cases hstop : (epochStep v st epoch).2 = true
    · rw [if_pos hstop]
      exact epochStep_saved_best v st epoch
    · rw [if_neg hstop]
      obtain ⟨l1, hl1⟩ := epochStep_saved_best v st epoch
      obtain ⟨l2, hl2⟩ := ih (epoch + 1) (epochStep v st epoch).1
      exact ⟨l1 ++ l2, by rw [hl2, hl1, List.append_assoc]⟩

/-- If some epoch `e` past 20 has validation macro-F1 below `0.3`, the loop —
started at or before `e` — never logs an epoch beyond `e`. -/
theorem trainLoop_run_le (v : ℕ → ℚ) (e : ℕ) (he : 20 < e)
    (hf : v e < mkRat 3 10) :
    ∀ (fuel epoch : ℕ) (st : TrainerState), epoch ≤ e →
      ∀ x ∈ (trainLoop v fuel epoch st).epochs_run,
        x ∈ st.epochs_run ∨ x ≤ e := by
  intro fuel
  induction fuel with
  | zero =>
    intro epoch st _ x hx
    exact Or.inl hx
  | succ n ih =>
    intro epoch st hle x hx
    simp only [trainLoop] at hx
    by_cases hstop : (epochStep v st epoch).2 = true
    · rw [if_pos hstop] at hx
      rw [epochStep_epochs_run] at hx
      rcases List.mem_append.mp hx with h | h
      · exact Or.inl h
      · right
        have hxe : x = epoch := by simpa using h
        omega
    · rw [if_neg hstop] at hx
      have hne : epoch ≠ e := by
        intro hcontra
        subst hcontra
        apply hstop
        rw [epochStep_snd]
        exact decide_eq_true ⟨he, hf⟩
      have hle2 : epoch + 1 ≤ e := by
        rcases Nat.lt_or_ge epoch e with h | h
        · omega
        · omega
      rcases ih (epoch + 1) (epochStep v st epoch).1 hle2 x hx with h | h
      · rw [epochStep_epochs_run] at h
        rcases List.mem_append.mp h with h2 | h2
        · exact Or.inl h2
        · right
          have hxe : x = epoch := by simpa using h2
          omega
      · exact Or.inr h

/-- Claim C6: whenever an epoch `e` past epoch 20 (0-indexed, matching the
loop variable of `train.py` line 369) has validation macro-F1 below the
absolute floor `0.3`, the training run never executes an epoch beyond `e` —
in particular with F1 forced below `0.3` at epoch 21 the run terminates at or
before epoch 21 — and the epoch loop never discards a previously persisted
best checkpoint. -/
theorem C6_early_stopping (val_f1 : ℕ → ℚ) (n : ℕ) :
    (∀ e, 20 < e → val_f1 e < 3/10 →
      ∀ x ∈ (train val_f1 n).epochs_run, x ≤ e)
  ∧ (∀ (fuel epoch : ℕ) (st : TrainerState),
      ∃ l, (trainLoop val_f1 fuel epoch st).saved_best =
        st.saved_best ++ l) := by
  have hmk : (mkRat 3 10 : ℚ) = 3/10 := by
    rw [Rat.mkRat_eq_div]
    norm_num
  constructor
  · intro e he hf
    rw [← hmk] at hf
    intro x hx
    have hx2 : x ∈ (trainLoop val_f1 n 0 initialTrainerState).epochs_run := by
      simpa [train] using hx
    rcases trainLoop_run_le val_f1 e he hf n 0 initialTrainerState
        (by omega) x hx2 with h | h
    · simp [initialTrainerState] at h
    · exact h
  · exact trainLoop_saved_best val_f1

set_option maxRecDepth 8000 in
/-- Claim C6, witness: with validation macro-F1 identically `0` and 30
configured epochs, epoch 5 runs and every executed epoch is at most 21. -/
theorem C6_early_stopping_witness :
    20 < 21 ∧ ((fun _ : ℕ => (0 : ℚ)) 21 < 3/10)
  ∧ 5 ∈ (train (fun _ : ℕ => (0 : ℚ)) 30).epochs_run
  ∧ 5 ≤ 21 := by
  have hmem : 5 ∈ (train (fun _ : ℕ => (0 : ℚ)) 30).epochs_run := by decide
  exact ⟨by norm_num, by norm_num, hmem,
    (C6_early_stopping (fun _ : ℕ => (0 : ℚ)) 30).1 21 (by norm_num)
      (by norm_num) 5 hmem⟩

/-! ## Claim C7 — the train/val/test split is a partition -/

/-- With the default fractions, 21 records send `ceil(0.3 * 21) = 7` to the
first test split. -/
theorem nTestSize_21 : nTestSize (1 - 7/10) 21 = 7 := by
  rw [nTestSize]
  rw [show ((1 - 7/10 : ℚ) * (21 : ℕ)) = 63/10 by push_cast; norm_num]
  rw [show ⌈(63 : ℚ)/10⌉ = 7 from by norm_num [Int.ceil_eq_iff]]
  rfl

/-- With the default fractions, the 7 temp records send `ceil(0.5 * 7) = 4`
to the second test split. -/
theorem nTestSize_7 : nTestSize (1 - (3/20) / (1 - 7/10)) 7 = 4 := by
  rw [nTestSize]
  rw [show ((1 - (3/20 : ℚ) / (1 - 7/10)) * (7 : ℕ)) = 7/2 by push_cast; norm_num]
  rw [show ⌈(7 : ℚ)/2⌉ = 4 from by norm_num [Int.ceil_eq_iff]]
  rfl

/-- Claim C7: for any input record list and any seed-determined shuffles, the
split produced by `create_data_loaders` is a partition — the three split
sizes sum exactly to the total record count and, when the input paths are
distinct, no path lands in more than one split — and with the default
70/15/15 fractions a 21-record corpus yields a train split of at least 14.
Determinism for a fixed seed is intrinsic to the model: the split is a pure
function of the record list, the fractions, and the seed's permutations. -/
theorem C7_split_partition {α : Type} (paths : List α)
    (shuffle1 shuffle2 : List α → List α) (ts vs : ℚ)
    (tr va te : List α)
    (h1 : ∀ l, (shuffle1 l).Perm l) (h2 : ∀ l, (shuffle2 l).Perm l)
    (hnd : paths.Nodup)
    (hsplit : create_data_splits paths shuffle1 shuffle2 ts vs =
      (tr, va, te)) :
    (tr.length + va.length + te.length = paths.length)
  ∧ (∀ x, (x ∈ tr → x ∉ va ∧ x ∉ te) ∧ (x ∈ va → x ∉ te))
  ∧ (paths.length = 21 → ts = 7/10 → vs = 3/20 → 14 ≤ tr.length) := by
  simp only [create_data_splits, Prod.mk.injEq] at hsplit
  obtain ⟨htr, hva, hte⟩ := hsplit
  have hp1 : (shuffle1 paths).Perm paths := h1 paths
  have hlen1 : (shuffle1 paths).length = paths.length := hp1.length_eq
  have hp2 : (shuffle2 ((shuffle1 paths).take
      (nTestSize (1 - ts) (shuffle1 paths).length))).Perm
      ((shuffle1 paths).take (nTestSize (1 - ts) (shuffle1 paths).length)) :=
    h2 _
  have hlen2 := hp2.length_eq
  refine ⟨?_, ?_, ?_⟩
  · rw [← htr, ← hva, ← hte]
    simp only [List.length_drop, List.length_take]
    have hlen2' := hlen2
    rw [List.length_take] at hlen2'
    omega
  · have hnd1 : (shuffle1 paths).Nodup := hp1.nodup_iff.mpr hnd
    have hcat1 := List.take_append_drop
      (nTestSize (1 - ts) (shuffle1 paths).length) (shuffle1 paths)
    have hnd1' : ((shuffle1 paths).take
        (nTestSize (1 - ts) (shuffle1 paths).length) ++
        (shuffle1 paths).drop
        (nTestSize (1 - ts) (shuffle1 paths).length)).Nodup := by
      rw [hcat1]
      exact hnd1
    obtain ⟨hndtk, hnddp, hdisj1⟩ := List.nodup_append.mp hnd1'
    have hnd2 : (shuffle2 ((shuffle1 paths).take
        (nTestSize (1 - ts) (shuffle1 paths).length))).Nodup :=
      hp2.nodup_iff.mpr hndtk
    set s2 := shuffle2 ((shuffle1 paths).take
      (nTestSize (1 - ts) (shuffle1 paths).length)) with hs2
    set k2 := nTestSize (1 - vs / (1 - ts)) s2.length with hk2
    have hcat2 := List.take_append_drop k2 s2
    have hnd2' : (s2.take k2 ++ s2.drop k2).Nodup := by
      rw [hcat2]
      exact hnd2
    obtain ⟨_, _, hdisj2⟩ := List.nodup_append.mp hnd2'
    intro x
    constructor
    · intro hxtr
      have hxdp : x ∈ (shuffle1 paths).drop
          (nTestSize (1 - ts) (shuffle1 paths).length) := by
        rw [htr]
        exact hxtr
      constructor
      · intro hxva
        have hxs2 : x ∈ s2 := by
          have : x ∈ s2.drop k2 := by
            rw [hva]
            exact hxva
          exact List.drop_subset k2 s2 this
        have hxtk : x ∈ (shuffle1 paths).take
            (nTestSize (1 - ts) (shuffle1 paths).length) :=
          hp2.mem_iff.mp hxs2
        exact hdisj1 hxtk hxdp
      · intro hxte
        have hxs2 : x ∈ s2 := by
          have : x ∈ s2.take k2 := by
            rw [hte]
            exact hxte
          exact List.take_subset k2 s2 this
        have hxtk : x ∈ (shuffle1 paths).take
            (nTestSize (1 - ts) (shuffle1 paths).length) :=
          hp2.mem_iff.mp hxs2
        exact hdisj1 hxtk hxdp
    · intro hxva hxte
      have hxdp2 : x ∈ s2.drop k2 := by
        rw [hva]
        exact hxva
      have hxtk2 : x ∈ s2.take k2 := by
        rw [hte]
        exact hxte
      exact hdisj2 hxtk2 hxdp2
  · intro hlen hts hvs
    subst hts
    have hk1 : nTestSize (1 - 7/10) (shuffle1 paths).length = 7 := by
      rw [hlen1, hlen]
      exact nTestSize_21
    rw [← htr, List.length_drop, hk1, hlen1, hlen]

/-- Claim C7, witness: the identity shuffles on the corpus `0, 1, ..., 20`
split 70/15/15 give a train split of 14 records, disjoint from the other two
splits, with the three sizes summing to 21. -/
theorem C7_split_partition_witness :
    (List.range 21).Nodup
  ∧ (((List.range 21).drop 7).length + (((List.range 21).take 7).drop 4).length
      + (((List.range 21).take 7).take 4).length = (List.range 21).length)
  ∧ (7 ∈ (List.range 21).drop 7 →
      7 ∉ ((List.range 21).take 7).drop 4 ∧
      7 ∉ ((List.range 21).take 7).take 4)
  ∧ 14 ≤ ((List.range 21).drop 7).length := by
  have hnd : (List.range 21).Nodup := List.nodup_range 21
  have h := C7_split_partition (List.range 21) id id (7/10) (3/20)
    ((List.range 21).drop 7) (((List.range 21).take 7).drop 4)
    (((List.range 21).take 7).take 4)
    (fun l => List.Perm.refl l) (fun l => List.Perm.refl l) hnd ?hsplit
  case hsplit =>
    have hk1 : nTestSize (1 - 7/10) (List.range 21).length = 7 := by
      rw [List.length_range]
      exact nTestSize_21
    have hk2 : nTestSize (1 - (3/20) / (1 - 7/10))
        ((List.range 21).take 7).length = 4 := by
      rw [List.length_take, List.length_range]
      rw [show min 7 21 = 7 from rfl]
      exact nTestSize_7
    simp only [create_data_splits, id]
    rw [hk1, hk2]
  exact ⟨hnd, h.1, (h.2.1 7).1, h.2.2 (by simp) rfl rfl⟩

end ShineSpec
